import Mathlib

/-!
Shallow embedding of the alert-evaluation core of the BotCrypto repository
(`db.py`, `jobs.py`, `utils.py`).

Conventions:
* SQLite `REAL` prices and thresholds are modelled as `ℚ`.
* Timestamps are `Int` seconds; `datetime('now', '-4 hours')` becomes
  `now - 14400`, `'-30 days'` becomes `now - 2592000`, `timedelta(hours=1)`
  becomes `3600`, and `CACHE_DURATION = 240` stays `240` seconds.
* SQLite tables and Python dicts are modelled as association lists.
* Fallible external effects (HTTP requests, the Telegram transport, database
  reads that may raise) are modelled as `Except`-valued oracles.
-/

namespace BotCrypto

/-- One row of the `notifications` table (`db.py`, `init_db`).  The free-text
`message` column is never read by any decision logic and is elided. -/
structure NotificationRecord where
  chat_id : Int
  asset : String
  alert_type : String
  price : ℚ
  threshold : Option ℚ
  sent_at : Int
deriving DecidableEq, Repr

/-- One row of the `subscriptions` table (`db.py`, `init_db`).  The
autoincrement `id` and `created_at` columns are elided (never read by the
logic under verification); row identity is positional in the list. -/
structure SubRow where
  chat_id : Int
  asset : String
  threshold : ℚ
  alert_type : String
  is_active : Bool
deriving DecidableEq, Repr

/-- One row of the `users` table, restricted to the columns the subscription
logic reads (`subscription_type`, `subscription_expires`). -/
structure UserRow where
  chat_id : Int
  subscription_type : String
  subscription_expires : Option Int
deriving DecidableEq, Repr

/-- The persistent state the subscription operations touch. -/
structure DBState where
  users : List UserRow
  subs : List SubRow
deriving DecidableEq, Repr

/-- SQLite's `ABS`, written so that it evaluates by kernel reduction. -/
def ratAbs (q : ℚ) : ℚ := if q < 0 then -q else q

theorem ratAbs_eq_abs (q : ℚ) : ratAbs q = |q| := by
  unfold ratAbs
  rcases lt_or_ge q 0 with h | h
  · rw [if_pos h, abs_of_neg h]
  · rw [if_neg (not_lt.mpr h), abs_of_nonneg h]

/-- `db.py` `should_send_notification`: count notifications with the same
`(chat_id, asset, alert_type)` whose `sent_at > datetime('now','-4 hours')`
and `ABS(price - current_price) < threshold * 0.02`, and approve (return
`true`) exactly when the count is zero. -/
def should_send_notification (db : List NotificationRecord) (now : Int)
    (chat_id : Int) (asset : String) (current_price threshold : ℚ)
    (alert_type : String) : Bool :=
  (db.countP (fun r =>
    r.chat_id == chat_id && r.asset == asset && r.alert_type == alert_type
      && decide (now - 14400 < r.sent_at)
      && decide (ratAbs (r.price - current_price) < threshold * (2 / 100)))) == 0

/-- Modelled from the spec (§4.3 wording of the throttle policy, for
comparison with the code): deny iff a record for the same
`(owner_id, asset, direction)` sent within the last 4 hours has a recorded
price within a 2% *relative tolerance of the current observed price*. -/
def shouldNotifySpecModel (db : List NotificationRecord) (now : Int)
    (chat_id : Int) (asset : String) (current_price : ℚ)
    (alert_type : String) : Bool :=
  (db.countP (fun r =>
    r.chat_id == chat_id && r.asset == asset && r.alert_type == alert_type
      && decide (now - 14400 < r.sent_at)
      && decide (ratAbs (r.price - current_price) ≤ current_price * (2 / 100)))) == 0

/-- `db.py` `log_notification`: insert one row into `notifications`.
(The `total_alerts_sent` counter update on `users` is elided: no verified
logic reads it.) -/
def log_notification (db : List NotificationRecord) (now : Int)
    (chat_id : Int) (asset : String) (alert_type : String) (price : ℚ)
    (threshold : Option ℚ) : List NotificationRecord :=
  db ++ [⟨chat_id, asset, alert_type, price, threshold, now⟩]

/-- `db.py` `get_user_subscription`: look up the user's row; a missing user
is reported as type `"free"` with no expiry (the side-creation of the row
does not affect the returned value and is elided). -/
def get_user_subscription (st : DBState) (chat_id : Int) :
    String × Option Int :=
  match st.users.find? (fun u => u.chat_id == chat_id) with
  | some u => (u.subscription_type, u.subscription_expires)
  | none => ("free", none)

/-- `db.py` `list_subscriptions`: the caller's rows with `is_active = 1`
(projection to `(asset, threshold, alert_type)`). -/
def list_subscriptions (st : DBState) (chat_id : Int) :
    List (String × ℚ × String) :=
  (st.subs.filter (fun s => s.chat_id == chat_id && s.is_active)).map
    (fun s => (s.asset, s.threshold, s.alert_type))

/-- `db.py` `check_subscription_limits`: downgrade helper used on premium
expiry. -/
def downgradeUser (st : DBState) (chat_id : Int) : DBState :=
  { st with users := st.users.map (fun u =>
      if u.chat_id == chat_id
      then { u with subscription_type := "free" } else u) }

/-- `db.py` `check_subscription_limits`: premium users with an unexpired
expiry pass; expired (or expiry-less) premium users are downgraded and
refused; free users are refused once they hold 2 active subscriptions. -/
def check_subscription_limits (st : DBState) (now : Int) (chat_id : Int) :
    DBState × Bool × String :=
  let user := get_user_subscription st chat_id
  if user.1 == "premium" then
    match user.2 with
    | some e =>
        if now < e then (st, true, "premium_active")
        else (downgradeUser st chat_id, false, "premium_expired")
    | none => (downgradeUser st chat_id, false, "premium_expired")
  else
    if 2 ≤ (list_subscriptions st chat_id).length
    then (st, false, "free_limit_reached")
    else (st, true, "free_ok")

/-- `db.py` `add_subscription`: check limits, then `INSERT`; the schema's
`UNIQUE(chat_id, asset, threshold, alert_type)` constraint raises
`IntegrityError` exactly when a row with all four values exists, in which
case the handler runs `UPDATE ... SET threshold = ?, is_active = 1 WHERE
chat_id = ? AND asset = ? AND alert_type = ?`. -/
def add_subscription (st : DBState) (now : Int) (chat_id : Int)
    (asset : String) (threshold : ℚ) (alert_type : String) :
    DBState × Bool × String :=
  let check := check_subscription_limits st now chat_id
  if !check.2.1 then (check.1, false, check.2.2)
  else
    let st1 := check.1
    if st1.subs.any (fun s =>
        s.chat_id == chat_id && s.asset == asset
          && s.threshold == threshold && s.alert_type == alert_type) then
      ({ st1 with subs := st1.subs.map (fun s =>
          if s.chat_id == chat_id && s.asset == asset
              && s.alert_type == alert_type
          then { s with threshold := threshold, is_active := true }
          else s) }, true, "updated")
    else
      ({ st1 with subs :=
          st1.subs ++ [⟨chat_id, asset, threshold, alert_type, true⟩] },
        true, "success")

/-- `db.py` `cleanup_old_notifications`: `DELETE FROM notifications WHERE
sent_at < datetime('now', '-30 days')`; returns the surviving table and the
number of deleted rows. -/
def cleanup_old_notifications (db : List NotificationRecord) (now : Int) :
    List NotificationRecord × Nat :=
  (db.filter (fun r => !decide (r.sent_at < now - 2592000)),
   (db.filter (fun r => decide (r.sent_at < now - 2592000))).length)

/-! ### `jobs.py`: price cache, price source adapter, evaluation cycle -/

/-- Lookup in an association list (Python dict read `data[asset]`). -/
def alookup (l : List (String × ℚ)) (key : String) : Option ℚ :=
  (l.find? (fun p => p.1 == key)).map (fun p => p.2)

/-- `jobs.py` `get_cached_data`: serve `cache_dict[key]` only when
`now - timestamp < timedelta(seconds=max_age)` (default `CACHE_DURATION =
240`).  The cache dict is an association list `(key, data, timestamp)`. -/
def get_cached_data (cache : List (String × ℚ × Int)) (now : Int)
    (key : String) (max_age : Int := 240) : Option ℚ :=
  match cache.find? (fun e => e.1 == key) with
  | some e => if now - e.2.2 < max_age then some e.2.1 else none
  | none => none

/-- `jobs.py` `set_cached_data`: `cache_dict[key] = (data, datetime.now())`
— unconditional overwrite with the current timestamp. -/
def set_cached_data (cache : List (String × ℚ × Int)) (now : Int)
    (key : String) (data : ℚ) : List (String × ℚ × Int) :=
  (key, data, now) :: cache.filter (fun e => !(e.1 == key))

/-- `jobs.py` `fetch_prices`.  The upstream HTTP request is an oracle
`api : List String → Except Unit (List (String × ℚ))`: `.ok data` is a
parsed 2xx response listing the assets that carry a `usd` price
(assets absent from `data` were missing from the response), `.error` is any
`RequestException` or other exception (timeout, non-2xx `raise_for_status`,
network or parse error).  Returns the price map and the updated cache. -/
def fetch_prices (api : List String → Except Unit (List (String × ℚ)))
    (cache : List (String × ℚ × Int)) (now : Int) (assets : List String) :
    List (String × ℚ) × List (String × ℚ × Int) :=
  if assets.isEmpty then ([], cache)
  else
    let cached_prices := assets.filterMap
      (fun a => (get_cached_data cache now a).map (fun p => (a, p)))
    let uncached_assets :=
      assets.filter (fun a => get_cached_data cache now a == none)
    if uncached_assets.isEmpty then (cached_prices, cache)
    else
      match api uncached_assets with
      | .error _ => (cached_prices, cache)
      | .ok data =>
          let fetched_prices := uncached_assets.filterMap
            (fun a => (alookup data a).map (fun p => (a, p)))
          let cache2 := fetched_prices.foldl
            (fun c ap => set_cached_data c now ap.1 ap.2) cache
          (cached_prices ++ fetched_prices, cache2)

/-- `jobs.py` `check_prices`, trigger test for one subscription:
`price_above` fires when `current_price >= threshold`, `price_below` when
`current_price <= threshold`; any other `alert_type` (the `percent_change`
stub) never fires. -/
def alert_triggered (alert_type : String) (price threshold : ℚ) : Bool :=
  if alert_type == "price_above" then decide (threshold ≤ price)
  else if alert_type == "price_below" then decide (price ≤ threshold)
  else false

/-- Telegram delivery failures seen by `send_advanced_alert`:
`unauthorized` is the blocked-recipient case, `other` any other
`TelegramError`/exception raised by `bot.send_message`. -/
inductive TransportError where
  | unauthorized
  | other
deriving DecidableEq, Repr

/-- `jobs.py` `send_advanced_alert`.  Oracles: `fetchUser` is the
`get_user_subscription` DB read (may raise), `transport` the
`bot.send_message` call.  The body computes
`percent_over = ((price - threshold) / threshold) * 100` before sending, so
`threshold = 0` raises `ZeroDivisionError`, caught by the blanket handler.
Every exception path returns `false` without logging; only after a
successful send is `log_notification` invoked (the record write itself is
assumed to succeed).  Returns the function's boolean result and the
notifications table after the call.  Message formatting and the premium
technical-analysis block (whose own errors are swallowed by an inner
handler) do not affect control flow and are elided. -/
def send_advanced_alert (fetchUser : Except Unit String)
    (transport : Except TransportError Unit)
    (notifs : List NotificationRecord) (now : Int) (chat_id : Int)
    (asset : String) (price threshold : ℚ) (alert_type : String) :
    Bool × List NotificationRecord :=
  match fetchUser with
  | .error _ => (false, notifs)
  | .ok _ =>
      if threshold == 0 then (false, notifs)
      else
        match transport with
        | .error _ => (false, notifs)
        | .ok _ =>
            (true,
             log_notification notifs now chat_id asset alert_type price
               (some threshold))

/-- The per-subscription loop of `jobs.py` `check_prices` (the traditional
alerts pass).  `throttle` is the `should_send_notification` DB read, which
may raise (`get_db` re-raises `sqlite3.Error`); an exception there
propagates to the cycle-level handler, aborting the loop.  `dispatch` is
`send_advanced_alert`, which catches every exception internally and is
therefore total.  Returns the subscriptions whose loop body was entered,
the `chat_id`s of the alerts sent, and whether the loop was aborted by an
exception. -/
def check_prices_loop
    (throttle : SubRow → ℚ → Except Unit Bool)
    (dispatch : SubRow → ℚ → Bool)
    (prices : List (String × ℚ)) :
    List SubRow → List SubRow × List Int × Bool
  | [] => ([], [], false)
  | s :: rest =>
    match alookup prices s.asset with
    | none =>
        let r := check_prices_loop throttle dispatch prices rest
        (s :: r.1, r.2.1, r.2.2)
    | some price =>
        if alert_triggered s.alert_type price s.threshold then
          match throttle s price with
          | .error _ => ([s], [], true)
          | .ok true =>
              let r := check_prices_loop throttle dispatch prices rest
              if dispatch s price then (s :: r.1, s.chat_id :: r.2.1, r.2.2)
              else (s :: r.1, r.2.1, r.2.2)
          | .ok false =>
              let r := check_prices_loop throttle dispatch prices rest
              (s :: r.1, r.2.1, r.2.2)
        else
          let r := check_prices_loop throttle dispatch prices rest
          (s :: r.1, r.2.1, r.2.2)

/-- The housekeeping guard of `jobs.py` `check_prices`: run the cleanup only
when `now - _last_cleanup > timedelta(hours=1)`, and then set
`_last_cleanup = now`.  Returns (ran?, new `_last_cleanup`). -/
def cleanup_step (last_cleanup now : Int) : Bool × Int :=
  if 3600 < now - last_cleanup then (true, now) else (false, last_cleanup)

/-! ### `utils.py`: asset validation -/

/-- `utils.py` `SUPPORTED_ASSETS`, in dict insertion order (the partial-match
loop of `validate_asset` iterates in this order). -/
def SUPPORTED_ASSETS : List (String × String) :=
  [("btc", "bitcoin"), ("bitcoin", "bitcoin"),
   ("eth", "ethereum"), ("ethereum", "ethereum"),
   ("ada", "cardano"), ("cardano", "cardano"),
   ("sol", "solana"), ("solana", "solana"),
   ("dot", "polkadot"), ("polkadot", "polkadot"),
   ("matic", "matic-network"), ("polygon", "matic-network"),
   ("link", "chainlink"), ("chainlink", "chainlink"),
   ("avax", "avalanche-2"), ("avalanche", "avalanche-2"),
   ("atom", "cosmos"), ("cosmos", "cosmos"),
   ("xtz", "tezos"), ("tezos", "tezos"),
   ("algo", "algorand"), ("algorand", "algorand"),
   ("near", "near"),
   ("ftm", "fantom"), ("fantom", "fantom"),
   ("one", "harmony"), ("harmony", "harmony"),
   ("usdt", "tether"), ("usdc", "usd-coin"), ("busd", "binance-usd"),
   ("bnb", "binancecoin"), ("binance", "binancecoin"),
   ("xrp", "ripple"), ("ripple", "ripple"),
   ("doge", "dogecoin"), ("dogecoin", "dogecoin")]

/-- ASCII lowercasing of one character (`str.lower` restricted to ASCII;
non-ASCII letters are removed by the character-class filter either way). -/
def pyCharLower (c : Char) : Char :=
  if 'A' ≤ c ∧ c ≤ 'Z' then Char.ofNat (c.toNat + 32) else c

/-- Python `str.strip()`: drop leading and trailing whitespace. -/
def pyStrip (cs : List Char) : List Char :=
  ((cs.dropWhile Char.isWhitespace).reverse.dropWhile
    Char.isWhitespace).reverse

/-- The normalization step of `utils.py` `validate_asset`:
`user_input.lower().strip()` followed by `re.sub(r'[^a-z0-9-]', '', …)`. -/
def normalizeAssetInput (s : String) : String :=
  String.mk ((pyStrip (s.data.map pyCharLower)).filter (fun c =>
    decide (('a' ≤ c ∧ c ≤ 'z') ∨ ('0' ≤ c ∧ c ≤ '9') ∨ c = '-')))

/-- Python substring containment `needle in hay`. -/
def containsSub (hay needle : String) : Bool :=
  hay.data.tails.any (fun t => needle.data.isPrefixOf t)

/-- `utils.py` `validate_asset`: empty or fully-filtered input is rejected;
an exact key match returns `SUPPORTED_ASSETS[normalized]`; otherwise the
first key `k` (in dict order) with `normalized in k or k in normalized`
yields its mapped id; otherwise `None`. -/
def validate_asset (user_input : String) : Option String :=
  if user_input.isEmpty then none
  else if (normalizeAssetInput user_input).isEmpty then none
  else
    match SUPPORTED_ASSETS.find?
        (fun kv => kv.1 == normalizeAssetInput user_input) with
    | some kv => some kv.2
    | none =>
        match SUPPORTED_ASSETS.find? (fun kv =>
            containsSub kv.1 (normalizeAssetInput user_input)
              || containsSub (normalizeAssetInput user_input) kv.1) with
        | some kv => some kv.2
        | none => none

/-! ### Claims -/

unseal Rat.sub Rat.mul Rat.add Rat.inv in
/-- C1 (counterexample): the claim's tolerance — 2% of the current observed
price — disagrees with the code.  A record sent 1 hour ago at price 50500
for a subscription with threshold 100, queried at observed price 50000, is
within the claim's tolerance (500 ≤ 2% of 50000 = 1000), so the claim
demands suppression; the code compares against 2% of the threshold
(500 < 100 · 0.02 = 2 is false) and approves. -/
theorem throttle_claim_counterexample :
    should_send_notification
        [⟨7, "bitcoin", "price_above", 50500, some 100, -3600⟩] 0 7
        "bitcoin" 50000 100 "price_above" = true
    ∧ shouldNotifySpecModel
        [⟨7, "bitcoin", "price_above", 50500, some 100, -3600⟩] 0 7
        "bitcoin" 50000 "price_above" = false := by
  decide

unseal Rat.sub Rat.mul Rat.add Rat.inv in
/-- C1 (amended): `should_send_notification` returns `false` iff a record
for the same `(owner_id, asset, direction)` sent within the last 4 hours has
a recorded price within 2% *of the subscription threshold* (strictly,
`|recorded - observed| < threshold * 0.02`) of the current observed price;
the P2 instances (record 1 hour old at price 50000, threshold 50000:
observed 50500 suppressed, observed 52000 approved) hold. -/
theorem throttle_denies_iff_recent_record_within_threshold_tolerance :
    (∀ (db : List NotificationRecord) (now chat_id : Int) (asset : String)
        (current_price threshold : ℚ) (alert_type : String),
        should_send_notification db now chat_id asset current_price threshold
            alert_type = false ↔
          ∃ r ∈ db, r.chat_id = chat_id ∧ r.asset = asset ∧
            r.alert_type = alert_type ∧ now - 14400 < r.sent_at ∧
            |r.price - current_price| < threshold * (2 / 100))
    ∧ should_send_notification
        [⟨1, "bitcoin", "price_above", 50000, some 50000, -3600⟩] 0 1
        "bitcoin" 50500 50000 "price_above" = false
    ∧ should_send_notification
        [⟨1, "bitcoin", "price_above", 50000, some 50000, -3600⟩] 0 1
        "bitcoin" 52000 50000 "price_above" = true := by
  refine ⟨?_, by decide, by decide⟩
  intro db now cid a cp th ty
  unfold should_send_notification
  rw [beq_eq_false_iff_ne, Ne, List.countP_eq_zero]
  push_neg
  simp only [Bool.and_eq_true, beq_iff_eq, decide_eq_true_eq, not_forall,
    not_not, exists_prop, and_assoc, ratAbs_eq_abs]

unseal Rat.sub Rat.mul Rat.add Rat.inv in
/-- C2 (code bug): the `subscriptions` schema declares
`UNIQUE(chat_id, asset, threshold, alert_type)`, so re-subscribing to the
same `(owner, asset, direction)` with a different threshold raises no
`IntegrityError` and inserts a second row instead of updating the first:
after subscribing owner 1 to `bitcoin`/`price_above` at 40000 and then at
50000, the table holds two active rows. -/
theorem resubscribe_new_threshold_duplicates_row :
    ((add_subscription
        (add_subscription ⟨[⟨1, "free", none⟩], []⟩ 0 1 "bitcoin" 40000
          "price_above").1
        0 1 "bitcoin" 50000 "price_above").1).subs =
      [⟨1, "bitcoin", 40000, "price_above", true⟩,
       ⟨1, "bitcoin", 50000, "price_above", true⟩] := by
  decide

/-- C3: for a subscription whose asset has a known price, `price_above`
triggers exactly when `price ≥ threshold`, `price_below` exactly when
`price ≤ threshold`, and a non-matching subscription contributes nothing to
the cycle: the loop result is exactly the tail's result with the
subscription merely counted as visited. -/
theorem trigger_condition_correct :
    (∀ price threshold : ℚ,
        alert_triggered "price_above" price threshold = decide (price ≥ threshold))
    ∧ (∀ price threshold : ℚ,
        alert_triggered "price_below" price threshold = decide (price ≤ threshold))
    ∧ (∀ (throttle : SubRow → ℚ → Except Unit Bool)
         (dispatch : SubRow → ℚ → Bool) (prices : List (String × ℚ))
         (s : SubRow) (rest : List SubRow) (price : ℚ),
        alookup prices s.asset = some price →
        alert_triggered s.alert_type price s.threshold = false →
        check_prices_loop throttle dispatch prices (s :: rest) =
          (s :: (check_prices_loop throttle dispatch prices rest).1,
           (check_prices_loop throttle dispatch prices rest).2.1,
           (check_prices_loop throttle dispatch prices rest).2.2)) := by
  refine ⟨fun _ _ => rfl, fun _ _ => rfl, ?_⟩
  intro throttle dispatch prices s rest price hp ht
  simp [check_prices_loop, hp, ht]

/-- C3 witness: a `price_above` subscription at threshold 10 with current
price 5 does not fire and leaves no trace beyond being visited. -/
theorem trigger_condition_correct_witness :
    check_prices_loop (fun _ _ => Except.ok true) (fun _ _ => true)
        [("bitcoin", 5)] [⟨1, "bitcoin", 10, "price_above", true⟩] =
      ([⟨1, "bitcoin", 10, "price_above", true⟩], [], false) := by
  rw [trigger_condition_correct.2.2 (fun _ _ => Except.ok true)
    (fun _ _ => true) [("bitcoin", 5)] ⟨1, "bitcoin", 10, "price_above", true⟩
    [] 5 rfl rfl]
  rfl

/-- C4 (counterexample): two triggered subscriptions; the throttle check
raises on the first (`should_send_notification` re-raises database errors),
and the second subscription is never evaluated — the claim's isolation
fails for throttle failures. -/
theorem throttle_exception_aborts_remaining_subscriptions :
    check_prices_loop (fun _ _ => Except.error ()) (fun _ _ => true)
        [("bitcoin", 5)]
        [⟨1, "bitcoin", 1, "price_above", true⟩,
         ⟨2, "bitcoin", 1, "price_above", true⟩] =
      ([⟨1, "bitcoin", 1, "price_above", true⟩], [], true)
    ∧ (⟨2, "bitcoin", 1, "price_above", true⟩ : SubRow) ∉
        (check_prices_loop (fun _ _ => Except.error ()) (fun _ _ => true)
          [("bitcoin", 5)]
          [⟨1, "bitcoin", 1, "price_above", true⟩,
           ⟨2, "bitcoin", 1, "price_above", true⟩]).1 := by
  decide

/-- C4 (amended): a failure inside the dispatch for one subscription does
not abort the others — `send_advanced_alert` catches every exception and
reports `False`, so whenever the throttle check raises no exception every
subscription of the cycle is evaluated, whatever the dispatch outcomes; but
an exception inside the throttle check propagates to the cycle-level
handler and aborts evaluation of all remaining subscriptions. -/
theorem dispatch_failures_isolated_throttle_exceptions_abort :
    (∀ (throttle : SubRow → ℚ → Except Unit Bool)
       (dispatch : SubRow → ℚ → Bool) (prices : List (String × ℚ))
       (subs : List SubRow),
      (∀ s ∈ subs, ∀ p : ℚ, ∃ b, throttle s p = Except.ok b) →
        (check_prices_loop throttle dispatch prices subs).1 = subs ∧
        (check_prices_loop throttle dispatch prices subs).2.2 = false)
    ∧ (∀ (throttle : SubRow → ℚ → Except Unit Bool)
         (dispatch : SubRow → ℚ → Bool) (prices : List (String × ℚ))
         (s : SubRow) (rest : List SubRow) (price : ℚ),
        alookup prices s.asset = some price →
        alert_triggered s.alert_type price s.threshold = true →
        throttle s price = Except.error () →
        check_prices_loop throttle dispatch prices (s :: rest) =
          ([s], [], true)) := by
  constructor
  · intro throttle dispatch prices subs hok
    induction subs with
    | nil => exact ⟨rfl, rfl⟩
    | cons s rest ih =>
      have hrest := ih (fun x hx p => hok x (List.mem_cons_of_mem _ hx) p)
      cases hp : alookup prices s.asset with
      | none =>
          simp only [check_prices_loop, hp]
          exact ⟨by rw [hrest.1], hrest.2⟩
      | some price =>
          obtain ⟨b, hb⟩ := hok s (List.mem_cons_self _ _) price
          cases ht : alert_triggered s.alert_type price s.threshold
          · simp only [check_prices_loop, hp, ht, Bool.false_eq_true,
              if_false]
            exact ⟨by rw [hrest.1], hrest.2⟩
          · cases b
            · simp only [check_prices_loop, hp, ht, if_true, hb]
              exact ⟨by rw [hrest.1], hrest.2⟩
            · simp only [check_prices_loop, hp, ht, if_true, hb]
              cases hd : dispatch s price
              · simp only [Bool.false_eq_true, if_false]
                exact ⟨by rw [hrest.1], hrest.2⟩
              · simp only [if_true]
                exact ⟨by rw [hrest.1], hrest.2⟩
  · intro throttle dispatch prices s rest price hp ht hthr
    simp only [check_prices_loop, hp, ht, if_true, hthr]

/-- C4 witness: with a throttle that always answers and a dispatch that
always fails, both subscriptions are still evaluated and the cycle does not
abort. -/
theorem dispatch_failures_isolated_witness :
    (check_prices_loop (fun _ _ => Except.ok true) (fun _ _ => false)
        [("bitcoin", 5)]
        [⟨1, "bitcoin", 1, "price_above", true⟩,
         ⟨2, "bitcoin", 1, "price_above", true⟩]).1 =
      [⟨1, "bitcoin", 1, "price_above", true⟩,
       ⟨2, "bitcoin", 1, "price_above", true⟩] :=
  (dispatch_failures_isolated_throttle_exceptions_abort.1
    (fun _ _ => Except.ok true) (fun _ _ => false) [("bitcoin", 5)]
    [⟨1, "bitcoin", 1, "price_above", true⟩,
     ⟨2, "bitcoin", 1, "price_above", true⟩]
    (fun _ _ _ => ⟨true, rfl⟩)).1

/-- C5: when the upstream request fails (`RequestException` or any other
exception), `fetch_prices` returns exactly the prices already served from
the cache, leaves the cache untouched, and raises nothing (it is a total
function into a plain pair). -/
theorem fetch_prices_failure_returns_cached :
    ∀ (api : List String → Except Unit (List (String × ℚ)))
      (cache : List (String × ℚ × Int)) (now : Int) (assets : List String),
      (∀ q, api q = Except.error ()) →
      fetch_prices api cache now assets =
        (assets.filterMap
          (fun a => (get_cached_data cache now a).map (fun p => (a, p))),
         cache) := by
  intro api cache now assets h
  unfold fetch_prices
  by_cases he : assets.isEmpty
  · rw [if_pos he, List.isEmpty_iff.mp he]
    rfl
  · rw [if_neg he]
    by_cases hu :
        (assets.filter
          (fun a => get_cached_data cache now a == none)).isEmpty
    · rw [if_pos hu]
    · rw [if_neg hu, h]

/-- C5 witness: with bitcoin cached 100s ago and ethereum absent, a failing
request yields exactly the cached bitcoin price and no exception. -/
theorem fetch_prices_failure_returns_cached_witness :
    fetch_prices (fun _ => Except.error ()) [("bitcoin", 42, -100)] 0
        ["bitcoin", "ethereum"] =
      ([("bitcoin", 42)], [("bitcoin", 42, -100)]) := by
  rw [fetch_prices_failure_returns_cached (fun _ => Except.error ())
    [("bitcoin", 42, -100)] 0 ["bitcoin", "ethereum"] (fun _ => rfl)]
  rfl

/-- C6: `send_advanced_alert` writes a Notification Record iff the send to
the recipient succeeds — on success exactly one record is appended; on any
failure (user-lookup error, `ZeroDivisionError` for a zero threshold, a
blocked recipient, or any other transport error) the notifications table is
unchanged, so the trigger stays eligible for retry. -/
theorem dispatch_records_iff_send_succeeds :
    ∀ (fetchUser : Except Unit String)
      (transport : Except TransportError Unit)
      (notifs : List NotificationRecord) (now chat_id : Int)
      (asset : String) (price threshold : ℚ) (alert_type : String),
      ((send_advanced_alert fetchUser transport notifs now chat_id asset
          price threshold alert_type).1 = true ↔
        (∃ u, fetchUser = Except.ok u) ∧ ¬threshold = 0 ∧
          transport = Except.ok ())
      ∧ (send_advanced_alert fetchUser transport notifs now chat_id asset
            price threshold alert_type).2 =
          (if (send_advanced_alert fetchUser transport notifs now chat_id
                asset price threshold alert_type).1
           then notifs ++ [⟨chat_id, asset, alert_type, price,
                            some threshold, now⟩]
           else notifs) := by
  intro fetchUser transport notifs now chat_id asset price threshold ty
  cases fetchUser with
  | error e => simp [send_advanced_alert]
  | ok u =>
      by_cases hth : threshold = 0
      · simp [send_advanced_alert, hth]
      · cases transport with
        | error e =>
            constructor
            · simp [send_advanced_alert, hth]
            · simp [send_advanced_alert, if_neg hth]
        | ok uu =>
            constructor
            · simp [send_advanced_alert, if_neg hth, hth]
            · simp [send_advanced_alert, if_neg hth, log_notification]

/-- C7: the Price Cache contract and the two P3 instances.  A present entry
is served exactly when `now - observed_at < 240`; a put overwrites the
entry unconditionally with `observed_at = now`; a price cached 100s ago is
served with no request issued (the result does not depend on the request
oracle at all); a price cached 300s ago is a miss and the asset is
re-fetched and re-cached. -/
theorem cache_freshness_contract :
    (∀ (cache : List (String × ℚ × Int)) (now : Int) (key : String)
        (p : ℚ) (ts : Int),
        cache.find? (fun e => e.1 == key) = some (key, p, ts) →
        get_cached_data cache now key =
          (if now - ts < 240 then some p else none))
    ∧ (∀ (cache : List (String × ℚ × Int)) (now : Int) (key : String)
         (p : ℚ),
        (set_cached_data cache now key p).find? (fun e => e.1 == key) =
          some (key, p, now))
    ∧ (∀ api, fetch_prices api [("bitcoin", 42, -100)] 0 ["bitcoin"] =
        ([("bitcoin", 42)], [("bitcoin", 42, -100)]))
    ∧ fetch_prices (fun _ => Except.ok [("bitcoin", 50)])
        [("bitcoin", 42, -300)] 0 ["bitcoin"] =
        ([("bitcoin", 50)], [("bitcoin", 50, 0)]) := by
  refine ⟨?_, ?_, fun api => rfl, rfl⟩
  · intro cache now key p ts h
    unfold get_cached_data
    rw [h]
  · intro cache now key p
    unfold set_cached_data
    simp [List.find?]

/-- C7 witness: a concrete present entry, 10 seconds old, is served. -/
theorem cache_freshness_contract_witness :
    get_cached_data [("bitcoin", 42, -10)] 0 "bitcoin" = some 42 := by
  rw [cache_freshness_contract.1 [("bitcoin", 42, -10)] 0 "bitcoin" 42
    (-10) rfl]
  rfl

/-- C8: the cleanup pass keeps exactly the records with
`sent_at ≥ now - 30 days` (a record 29 days old survives, one 31 days old
does not), and the cycle's housekeeping guard, having just run at time
`now`, refuses to run again at any time within the next hour. -/
theorem retention_and_hourly_cleanup :
    (∀ (db : List NotificationRecord) (now : Int) (r : NotificationRecord),
        r ∈ (cleanup_old_notifications db now).1 ↔
          r ∈ db ∧ ¬(r.sent_at < now - 2592000))
    ∧ cleanup_old_notifications
        [⟨1, "bitcoin", "price_above", 1, none, -2505600⟩,
         ⟨1, "bitcoin", "price_above", 1, none, -2678400⟩] 0 =
        ([⟨1, "bitcoin", "price_above", 1, none, -2505600⟩], 1)
    ∧ (∀ last now later : Int, (cleanup_step last now).1 = true →
        later - now ≤ 3600 →
        (cleanup_step (cleanup_step last now).2 later).1 = false) := by
  refine ⟨?_, by decide, ?_⟩
  · intro db now r
    simp [cleanup_old_notifications, List.mem_filter]
  · intro last now later h1 h2
    unfold cleanup_step at h1 ⊢
    by_cases hb : 3600 < now - last
    · rw [if_pos hb]
      simp only []
      rw [if_neg (by omega)]
    · rw [if_neg hb] at h1
      cases h1

/-- C8 witness: cleanup runs at t = 3601 (last run at 0) and is then
refused at t = 7201, one hour minus nothing later. -/
theorem retention_and_hourly_cleanup_witness :
    (cleanup_step (cleanup_step 0 3601).2 7201).1 = false :=
  retention_and_hourly_cleanup.2.2 0 3601 7201 (by decide) (by decide)

/-- C9: a caller whose stored `subscription_type` is `"free"` and who
already holds 2 or more active subscriptions gets
`(False, "free_limit_reached")` from `add_subscription`, with the entire
database state (users and subscriptions) left unchanged. -/
theorem free_limit_refusal (st : DBState) (now chat_id : Int)
    (asset : String) (threshold : ℚ) (alert_type : String) (u : UserRow)
    (hu : st.users.find? (fun x => x.chat_id == chat_id) = some u)
    (hfree : u.subscription_type = "free")
    (hcount : 2 ≤ (list_subscriptions st chat_id).length) :
    add_subscription st now chat_id asset threshold alert_type =
      (st, false, "free_limit_reached") := by
  unfold add_subscription check_subscription_limits get_user_subscription
  rw [hu]
  simp [hfree, hcount]

/-- C9 witness: a free user with two active subscriptions is refused a
third, and the state is returned untouched. -/
theorem free_limit_refusal_witness :
    add_subscription
        ⟨[⟨1, "free", none⟩],
         [⟨1, "bitcoin", 1, "price_above", true⟩,
          ⟨1, "ethereum", 2, "price_above", true⟩]⟩ 0 1 "solana" 5
        "price_above" =
      (⟨[⟨1, "free", none⟩],
        [⟨1, "bitcoin", 1, "price_above", true⟩,
         ⟨1, "ethereum", 2, "price_above", true⟩]⟩, false,
       "free_limit_reached") :=
  free_limit_refusal _ 0 1 "solana" 5 "price_above" ⟨1, "free", none⟩ rfl
    rfl (by decide)

/-- C10: `validate_asset` returns `None` or a canonical id occurring as a
value of `SUPPORTED_ASSETS` (never an unmapped string), and any input that
is empty or normalizes to the empty string (no characters in `[a-z0-9-]`
after lowercasing) returns `None`. -/
theorem validate_asset_canonical_or_none :
    ∀ s : String,
      (validate_asset s = none ∨
        ∃ kv ∈ SUPPORTED_ASSETS, validate_asset s = some kv.2)
      ∧ (normalizeAssetInput s = "" → validate_asset s = none) := by
  intro s
  constructor
  · unfold validate_asset
    split
    next => exact Or.inl rfl
    next =>
      split
      next => exact Or.inl rfl
      next =>
        split
        next kv hf => exact Or.inr ⟨kv, List.mem_of_find?_eq_some hf, rfl⟩
        next hf =>
          split
          next kv hg =>
            exact Or.inr ⟨kv, List.mem_of_find?_eq_some hg, rfl⟩
          next => exact Or.inl rfl
  · intro h
    have h2 : (normalizeAssetInput s).isEmpty = true := by rw [h]; rfl
    unfold validate_asset
    cases h1 : s.isEmpty <;> simp [h1, h2]

/-- C10 witness: an input with no `[a-z0-9-]` characters is rejected. -/
theorem validate_asset_canonical_or_none_witness :
    validate_asset "!!!" = none :=
  (validate_asset_canonical_or_none "!!!").2 (by decide)

end BotCrypto
